import Mathlib

/-!
Verification of the BigQ-Opt cost-optimization dashboard core logic.

Shallow embedding of the repository code:
* `src/config.py` — cost constants.
* `src/services/bigquery_service.py` — `BigQueryService.dry_run_query`.
* `src/services/ai_optimizer_service.py` — `AIErrorHandler.handle_ai_error`
  and `AIOptimizerService._call_ai_with_retry`.
* `src/modules/sql_optimization.py` — `_process_query_pair_parallel` and the
  savings computation of `_run_sql_optimization_workflow`.
* `src/modules/storage_optimization.py` — the suggestion/metadata aggregation
  of `_run_storage_optimization_workflow`.
* `src/modules/ml_autoscaling.py` — the suggestion/metadata aggregation of
  `_run_ml_optimization_workflow`.
* `src/simulators/storage_simulator.py` — `StorageSimulator.generate_bucket_metadata`.

Provider calls (BigQuery client, LLM clients) are modelled as oracles:
a provider outcome is an `Except String` value (exception text on failure),
and random draws are passed in explicitly with hypotheses recording the
documented ranges of Python's `random` primitives.
-/

namespace BigQOpt

/-! ## String helpers

Python tests membership with `needle in hay` and lower-cases with
`str.lower()`.  We model these over the character lists of the strings. -/

/-- Does the character list `hay` start with `n`?  (Python `hay.startswith(n)`.) -/
def listHasPref : List Char → List Char → Bool
  | [], _ => true
  | _ :: _, [] => false
  | a :: as, b :: bs => a == b && listHasPref as bs

/-- Does `n` occur as a contiguous sublist of `hay`?  (Python `n in hay`.) -/
def listHasSub (n : List Char) : List Char → Bool
  | [] => listHasPref n []
  | b :: bs => listHasPref n (b :: bs) || listHasSub n bs

/-- Python `needle in hay` on strings. -/
def strContains (hay needle : String) : Bool :=
  listHasSub needle.toList hay.toList

/-- Python `s.lower()`. -/
def strLower (s : String) : String :=
  String.mk (s.toList.map Char.toLower)

/-- Python `s[:n]` (truncation of a string to its first `n` characters). -/
def strTake (s : String) (n : Nat) : String :=
  String.mk (s.toList.take n)

/-! ## Configuration constants (`src/config.py`) -/

/-- `Config.BIGQUERY_COST_PER_TB` — $50 per TB of data processed. -/
def BIGQUERY_COST_PER_TB : ℚ := 50.0

/-- `Config.GCS_STANDARD_COST_PER_GB` — 0.020 USD, written as an exact
fraction. -/
def GCS_STANDARD_COST_PER_GB : ℚ := 20 / 1000

/-- `Config.GCS_NEARLINE_COST_PER_GB` — 0.010 USD. -/
def GCS_NEARLINE_COST_PER_GB : ℚ := 10 / 1000

/-- `Config.GCS_COLDLINE_COST_PER_GB` — 0.004 USD. -/
def GCS_COLDLINE_COST_PER_GB : ℚ := 4 / 1000

/-- `Config.GCS_ARCHIVE_COST_PER_GB` — 0.0012 USD. -/
def GCS_ARCHIVE_COST_PER_GB : ℚ := 12 / 10000

/-! ## `BigQueryService.dry_run_query` (`src/services/bigquery_service.py`)

The BigQuery client call `client.query(query, job_config).total_bytes_processed`
is modelled as a provider outcome: `Except.ok bytes` when the dry run
succeeds and `Except.error e` when it raises an exception with text `e`. -/

/-- The dictionary returned by `dry_run_query`. -/
structure DryRunResult where
  total_bytes_processed : Nat
  estimated_cost_usd : ℚ
  success : Bool
  error : Option String
  deriving Repr, DecidableEq

/-- `BigQueryService.dry_run_query`: on success computes
`bytes / 1024^4 * 5.0` (the hard-coded $5-per-TB formula in the source);
on any exception returns the failure record. -/
def dry_run_query (providerOutcome : Except String Nat) : DryRunResult :=
  match providerOutcome with
  | Except.ok bytes =>
      { total_bytes_processed := bytes
        estimated_cost_usd := (bytes : ℚ) / (1024 ^ 4) * 5.0
        success := true
        error := none }
  | Except.error e =>
      { total_bytes_processed := 0
        estimated_cost_usd := 0.0
        success := false
        error := some e }

/-! ## `AIErrorHandler.handle_ai_error` (`src/services/ai_optimizer_service.py`) -/

/-- The dictionary returned by `handle_ai_error`. -/
structure AIErrorInfo where
  error_type : String
  user_message : String
  should_retry : Bool
  original_error : String
  deriving Repr, DecidableEq

/-- `AIErrorHandler.handle_ai_error`: classifies an exception's text by
substring matching, in source order, into `rate_limit`, `authentication`,
`timeout`, `invalid_response` or `unknown`. -/
def handle_ai_error (error_message : String) (retry_count : Nat) : AIErrorInfo :=
  if strContains (strLower error_message) "rate limit" ||
      strContains (strLower error_message) "quota" then
    { error_type := "rate_limit"
      user_message := "API rate limit exceeded. Retrying with exponential backoff..."
      should_retry := decide (0 < retry_count)
      original_error := error_message }
  else if strContains (strLower error_message) "api key" ||
      strContains (strLower error_message) "authentication" then
    { error_type := "authentication"
      user_message := "Invalid API key or authentication failed"
      should_retry := false
      original_error := error_message }
  else if strContains (strLower error_message) "timeout" then
    { error_type := "timeout"
      user_message := "Request timed out. Retrying..."
      should_retry := decide (0 < retry_count)
      original_error := error_message }
  else if strContains (strLower error_message) "json" ||
      strContains (strLower error_message) "parse" then
    { error_type := "invalid_response"
      user_message := "Failed to parse AI response. The response format was invalid."
      should_retry := false
      original_error := error_message }
  else
    { error_type := "unknown"
      user_message := error_message
      should_retry := false
      original_error := error_message }

/-! ## `AIOptimizerService._call_ai_with_retry`

The provider call of attempt `i` is modelled by `outcomes i`:
`Except.ok text` when the call returns `text`, `Except.error e` when it raises
an exception with text `e`.  The function returns the list of backoff waits
performed (in seconds, in order) together with the final outcome:
`Except.ok` the returned response text, or `Except.error` the message of the
exception the Python code raises. -/

/-- One iteration of the `for attempt in range(max_retries)` loop of
`_call_ai_with_retry`, with `remaining = max_retries - attempt` iterations
left.  Falling out of the loop raises the final "after all retries" error. -/
def retry_go (outcomes : Nat → Except String String) (max_retries : Nat) :
    Nat → Nat → List Nat × Except String String
  | _, 0 => ([], Except.error "Failed to get AI response after all retries")
  | attempt, remaining + 1 =>
    match outcomes attempt with
    | Except.ok text => ([], Except.ok text)
    | Except.error e =>
      let info := handle_ai_error e (max_retries - attempt - 1)
      if info.should_retry = false ∨ attempt = max_retries - 1 then
        ([], Except.error (info.user_message ++ ": " ++ info.original_error))
      else
        let rest := retry_go outcomes max_retries (attempt + 1) remaining
        (2 ^ attempt :: rest.1, rest.2)

/-- `AIOptimizerService._call_ai_with_retry` (entry point: the loop starts at
`attempt = 0` with `max_retries` iterations). -/
def call_ai_with_retry (outcomes : Nat → Except String String)
    (max_retries : Nat := 3) : List Nat × Except String String :=
  retry_go outcomes max_retries 0 max_retries

/-! ## `_process_query_pair_parallel` (`src/modules/sql_optimization.py`)

The dry runs executed by a pair's work unit are modelled by a function
`dryRun : String → DryRunResult` from query text to the result of
`dry_run_query` on it.  The embedding additionally returns the trace of the
queries that were dry-run, in order, so that "the optimized query is never
dry-run" is expressible. -/

/-- The `result` dictionary of the tuple returned by
`_process_query_pair_parallel`: either both dry-run results, or an error
message for the pair. -/
inductive PairResult where
  | ok (query_id : String) (before_result after_result : DryRunResult)
  | err (query_id : String) (error : String)
  deriving Repr, DecidableEq

/-- The auth-marker check `'401' in error_msg or 'UNAUTHENTICATED' in
error_msg or 'authentication' in error_msg.lower()` (repeated verbatim three
times in the source). -/
def is_auth_error_text (error_msg : String) : Bool :=
  strContains error_msg "401" || strContains error_msg "UNAUTHENTICATED" ||
    strContains (strLower error_msg) "authentication"

/-- `_process_query_pair_parallel`: dry-run the original query; on failure
classify and stop the pair; otherwise dry-run the optimized query with the
same failure handling; on both successes return both results.  The first
component is the trace of queries dry-run. -/
def process_query_pair_parallel (dryRun : String → DryRunResult)
    (query_id original_query optimized_query : String) :
    List String × Bool × PairResult :=
  let before_result := dryRun original_query
  if before_result.success = false then
    let error_msg := before_result.error.getD "Unknown error"
    if is_auth_error_text error_msg then
      ([original_query], false,
        PairResult.err query_id "Authentication error - check credentials")
    else
      ([original_query], false,
        PairResult.err query_id ("Original query failed: " ++ strTake error_msg 150))
  else
    let after_result := dryRun optimized_query
    if after_result.success = false then
      let error_msg := after_result.error.getD "Unknown error"
      if is_auth_error_text error_msg then
        ([original_query, optimized_query], false,
          PairResult.err query_id "Authentication error - check credentials")
      else
        ([original_query, optimized_query], false,
          PairResult.err query_id ("Optimized query failed: " ++ strTake error_msg 150))
    else
      ([original_query, optimized_query], true,
        PairResult.ok query_id before_result after_result)

/-- The fan-out of `_run_sql_optimization_workflow` step 3: every submitted
pair is processed by `_process_query_pair_parallel`; the worker pool affects
only completion order, which we do not model — the multiset of per-pair
outcomes is that of the pointwise map.  A pair is `(query_id, original_query,
optimized_query)`. -/
def run_pairs_batch (dryRun : String → DryRunResult)
    (pairs : List (String × String × String)) :
    List (List String × Bool × PairResult) :=
  pairs.map (fun p => process_query_pair_parallel dryRun p.1 p.2.1 p.2.2)

/-! ## Savings computation of `_run_sql_optimization_workflow` (step 4) -/

/-- `models/data_models.py` — `SQLOptimizationResult` (timestamp modelled as
an integer clock value). -/
structure SQLOptimizationResult where
  query_id : String
  original_query : String
  optimized_query : String
  bytes_before : Nat
  bytes_after : Nat
  cost_before_usd : ℚ
  cost_after_usd : ℚ
  savings_percent : ℚ
  optimizations_applied : List String
  timestamp : Int
  deriving Repr, DecidableEq

/-- The savings computation of `_run_sql_optimization_workflow`:
`((bytes_before - bytes_after) / bytes_before) * 100` when
`bytes_before > 0`, else `0.0`. -/
def compute_savings_percent (bytes_before bytes_after : Nat) : ℚ :=
  if 0 < bytes_before then
    (((bytes_before : ℚ) - (bytes_after : ℚ)) / (bytes_before : ℚ)) * 100
  else
    0.0

/-- Construction of a `SQLOptimizationResult` from a successful pair in
`_run_sql_optimization_workflow` step 4. -/
def mk_sql_result (query_id original_query optimized_query : String)
    (before_result after_result : DryRunResult)
    (optimizations_applied : List String) (timestamp : Int) :
    SQLOptimizationResult :=
  { query_id := query_id
    original_query := original_query
    optimized_query := optimized_query
    bytes_before := before_result.total_bytes_processed
    bytes_after := after_result.total_bytes_processed
    cost_before_usd := before_result.estimated_cost_usd
    cost_after_usd := after_result.estimated_cost_usd
    savings_percent := compute_savings_percent before_result.total_bytes_processed
      after_result.total_bytes_processed
    optimizations_applied := optimizations_applied
    timestamp := timestamp }

/-! ## Storage aggregation (`src/modules/storage_optimization.py`)

`_run_storage_optimization_workflow` matches every AI suggestion against the
generated bucket metadata by bucket name and builds a result record for every
matched suggestion; unmatched suggestions are dropped. -/

/-- A bucket metadata record as produced by
`StorageSimulator.generate_bucket_metadata` (`last_accessed` modelled as an
integer day number). -/
structure BucketMeta where
  name : String
  size_gb : ℚ
  last_accessed : Int
  region : String
  storage_class : String
  deriving Repr, DecidableEq

/-- An AI storage suggestion (one element of the list returned by
`AIOptimizerService.analyze_storage`, with its validated required keys). -/
structure StorageSuggestion where
  bucket_name : String
  issue : String
  suggestion : String
  estimated_savings_percent : ℚ
  deriving Repr, DecidableEq

/-- `models/data_models.py` — `StorageOptimizationResult`. -/
structure StorageOptimizationResult where
  bucket_name : String
  current_size_gb : ℚ
  current_storage_class : String
  last_accessed : Int
  issue : String
  suggestion : String
  estimated_savings_percent : ℚ
  estimated_savings_usd : ℚ
  action_type : String
  deriving Repr, DecidableEq

/-- The `storage_costs` dictionary lookup
`storage_costs.get(current_storage_class, Config.GCS_STANDARD_COST_PER_GB)`. -/
def storage_costs (storage_class : String) : ℚ :=
  if storage_class = "STANDARD" then GCS_STANDARD_COST_PER_GB
  else if storage_class = "NEARLINE" then GCS_NEARLINE_COST_PER_GB
  else if storage_class = "COLDLINE" then GCS_COLDLINE_COST_PER_GB
  else if storage_class = "ARCHIVE" then GCS_ARCHIVE_COST_PER_GB
  else GCS_STANDARD_COST_PER_GB

/-- Derivation of the action type from the suggestion text by keyword match. -/
def action_type_of (suggestion_text : String) : String :=
  let lower := strLower suggestion_text
  if strContains lower "delete" || strContains lower "remove" then "delete"
  else if strContains lower "compress" then "compress"
  else if strContains lower "lifecycle" then "lifecycle"
  else "move"

/-- The result record built for a suggestion matched to bucket metadata in
`_run_storage_optimization_workflow`. -/
def mk_storage_result (s : StorageSuggestion) (b : BucketMeta) :
    StorageOptimizationResult :=
  let current_cost_per_gb := storage_costs b.storage_class
  let current_monthly_cost := b.size_gb * current_cost_per_gb
  { bucket_name := s.bucket_name
    current_size_gb := b.size_gb
    current_storage_class := b.storage_class
    last_accessed := b.last_accessed
    issue := s.issue
    suggestion := s.suggestion
    estimated_savings_percent := s.estimated_savings_percent
    estimated_savings_usd := current_monthly_cost * (s.estimated_savings_percent / 100)
    action_type := action_type_of s.suggestion }

/-- The aggregation loop of `_run_storage_optimization_workflow`: for every
suggestion, `next((b for b in bucket_metadata if b['name'] == bucket_name),
None)`; a result is appended only when a matching bucket is found. -/
def run_storage_aggregation (bucket_metadata : List BucketMeta)
    (suggestions : List StorageSuggestion) : List StorageOptimizationResult :=
  suggestions.filterMap (fun s =>
    (bucket_metadata.find? (fun b => b.name == s.bucket_name)).map
      (mk_storage_result s))

/-! ## ML aggregation (`src/modules/ml_autoscaling.py`)

Same matching shape: for every AI suggestion,
`next((j for j in ml_job_metadata if j['job_name'] == job_name), None)`;
a result is appended only when a matching job is found. -/

/-- An accelerator configuration dictionary inside an ML suggestion. -/
structure MLConfig where
  accelerator_type : String
  gpu_hours : ℚ
  spot_vm : Bool
  deriving Repr, DecidableEq

/-- An AI ML suggestion (one element of the list returned by
`AIOptimizerService.optimize_ml_jobs`). -/
structure MLSuggestion where
  job_name : String
  current_config : MLConfig
  suggested_config : MLConfig
  optimization_type : String
  estimated_savings_percent : ℚ
  deriving Repr, DecidableEq

/-- An ML job metadata record (only the fields the aggregation reads). -/
structure MLJobMeta where
  job_name : String
  estimated_cost : ℚ
  deriving Repr, DecidableEq

/-- `models/data_models.py` — `MLOptimizationResult`. -/
structure MLOptimizationResult where
  job_name : String
  current_accelerator : String
  suggested_accelerator : String
  current_cost : ℚ
  suggested_cost : ℚ
  optimization_type : String
  estimated_savings_percent : ℚ
  implementation_notes : String
  deriving Repr, DecidableEq

/-- `_generate_implementation_notes`: keyword-driven note list joined by
`" | "`. -/
def generate_implementation_notes (optimization_type : String)
    (current_config suggested_config : MLConfig) : String :=
  let lower := strLower optimization_type
  let notes : List String :=
    (if strContains lower "spot" then
      ["Enable spot/preemptible VMs in Vertex AI training configuration",
       "Implement checkpointing to handle potential interruptions"] else []) ++
    (if strContains lower "downgrade" || strContains lower "machine_type" then
      ["Change accelerator from " ++ current_config.accelerator_type ++ " to " ++
         suggested_config.accelerator_type,
       "Test model performance with new accelerator type"] else []) ++
    (if strContains lower "autoscaling" then
      ["Configure autoscaling policies in Vertex AI",
       "Set appropriate min/max node counts"] else []) ++
    (if strContains lower "caching" then
      ["Enable Vertex AI caching for preprocessing steps",
       "Cache feature engineering pipelines"] else [])
  let notes := if notes = [] then
    ["Review AI suggestions and implement recommended changes"] else notes
  String.intercalate " | " notes

/-- The result record built for an ML suggestion matched to job metadata in
`_run_ml_optimization_workflow` (suggested cost =
`current_cost * (1 - savings_percent / 100)`). -/
def mk_ml_result (s : MLSuggestion) (j : MLJobMeta) : MLOptimizationResult :=
  { job_name := s.job_name
    current_accelerator := s.current_config.accelerator_type
    suggested_accelerator := s.suggested_config.accelerator_type
    current_cost := j.estimated_cost
    suggested_cost := j.estimated_cost * (1 - s.estimated_savings_percent / 100)
    optimization_type := s.optimization_type
    estimated_savings_percent := s.estimated_savings_percent
    implementation_notes := generate_implementation_notes s.optimization_type
      s.current_config s.suggested_config }

/-- The aggregation loop of `_run_ml_optimization_workflow`. -/
def run_ml_aggregation (ml_job_metadata : List MLJobMeta)
    (suggestions : List MLSuggestion) : List MLOptimizationResult :=
  suggestions.filterMap (fun s =>
    (ml_job_metadata.find? (fun j => j.job_name == s.job_name)).map
      (mk_ml_result s))

/-! ## `StorageSimulator.generate_bucket_metadata`
(`src/simulators/storage_simulator.py`)

The generator consumes, per bucket, a fixed set of random draws.  We pass the
draws in explicitly; the contracts of Python's `random` primitives
(`randint(a, b)` lands in `[a, b]`, `random()` lands in `[0, 1)`,
`uniform(a, b)` lands in `[a, b]`, `choice(l)` picks an element of `l`,
modelled as an arbitrary index reduced mod the list length) become the
well-formedness predicate `WellFormedDraws`. -/

/-- `StorageSimulator.STORAGE_CLASSES`. -/
def STORAGE_CLASSES : List String := ["STANDARD", "NEARLINE", "COLDLINE", "ARCHIVE"]

/-- `StorageSimulator.REGIONS`. -/
def REGIONS : List String :=
  ["us-central1", "us-east1", "us-west1", "us-west2",
   "europe-west1", "europe-west2", "asia-east1", "asia-southeast1"]

/-- The bucket-name stem pool of `StorageSimulator` (source list of ten
realistic name heads that a random suffix is appended to). -/
def BUCKET_NAME_POOL : List String :=
  ["prod-data", "dev-logs", "analytics", "backups", "ml-datasets",
   "user-uploads", "archive", "temp-storage", "reports", "media-assets"]

/-- The random draws consumed for one bucket, in source order:
name stem choice, suffix `randint(1000, 9999)`, size-branch `random()`,
the `uniform` size draw of the chosen branch, `days_ago = randint(1, 365)`,
storage-class choice, region choice. -/
structure BucketDraws where
  stemIdx : Nat
  suffix : Nat
  size_distribution : ℚ
  sizeDraw : ℚ
  days_ago : Nat
  classIdx : Nat
  regionIdx : Nat
  deriving Repr, DecidableEq

/-- Ranges guaranteed by Python's `random` primitives for the draws of one
bucket. -/
def WellFormedDraws (d : BucketDraws) : Prop :=
  1000 ≤ d.suffix ∧ d.suffix ≤ 9999 ∧
  0 ≤ d.size_distribution ∧ d.size_distribution < 1 ∧
  (d.size_distribution < 1 / 2 → 1 ≤ d.sizeDraw ∧ d.sizeDraw ≤ 100) ∧
  (1 / 2 ≤ d.size_distribution → d.size_distribution < 4 / 5 →
    100 ≤ d.sizeDraw ∧ d.sizeDraw ≤ 1000) ∧
  (4 / 5 ≤ d.size_distribution → 1000 ≤ d.sizeDraw ∧ d.sizeDraw ≤ 10000) ∧
  1 ≤ d.days_ago ∧ d.days_ago ≤ 365

instance (d : BucketDraws) : Decidable (WellFormedDraws d) := by
  unfold WellFormedDraws; infer_instance

/-- Python `round(x, 2)` on the size draw (rounding to two decimal places;
the tie-breaking convention is irrelevant to the proved bounds). -/
def round2 (q : ℚ) : ℚ := (round (100 * q) : ℚ) / 100

/-- The storage-class candidate list chosen from the bucket's age:
`["STANDARD", "NEARLINE"]` under 30 days, `["STANDARD", "NEARLINE",
"COLDLINE"]` under 90 days, `["NEARLINE", "COLDLINE", "ARCHIVE"]` otherwise. -/
def storage_class_options (days_ago : Nat) : List String :=
  if days_ago < 30 then ["STANDARD", "NEARLINE"]
  else if days_ago < 90 then ["STANDARD", "NEARLINE", "COLDLINE"]
  else ["NEARLINE", "COLDLINE", "ARCHIVE"]

/-- Generation of one bucket record from its draws (`now` is the current
day number; `last_accessed = now - days_ago`). -/
def generate_bucket (now : Int) (d : BucketDraws) : BucketMeta :=
  let stem := BUCKET_NAME_POOL.getD (d.stemIdx % BUCKET_NAME_POOL.length) ""
  let options := storage_class_options d.days_ago
  { name := stem ++ "-" ++ toString d.suffix
    size_gb := round2 d.sizeDraw
    last_accessed := now - d.days_ago
    region := REGIONS.getD (d.regionIdx % REGIONS.length) ""
    storage_class := options.getD (d.classIdx % options.length) "" }

/-- `StorageSimulator.generate_bucket_metadata`: one record per iteration of
the `for i in range(count)` loop; calling it with `count` draw-sets yields
`count` records. -/
def generate_bucket_metadata (now : Int) (draws : List BucketDraws) :
    List BucketMeta :=
  draws.map (generate_bucket now)

/-! ## Concrete demonstration inputs (used by witness theorems) -/

/-- Five query pairs, as produced by workflow step 2. -/
def demoPairs5 : List (String × String × String) :=
  [("Query 1", "SELECT A", "SELECT A opt"),
   ("Query 2", "SELECT B", "SELECT B opt"),
   ("Query 3", "SELECT C", "SELECT C opt"),
   ("Query 4", "SELECT D", "SELECT D opt"),
   ("Query 5", "SELECT E", "SELECT E opt")]

/-- A dry-run oracle under which exactly the original query of pair #3
fails (with a non-auth error) and every other query succeeds. -/
def demoDryRun (q : String) : DryRunResult :=
  if q = "SELECT C" then dry_run_query (Except.error "403 permission denied")
  else dry_run_query (Except.ok 1048576)

/-- Provider outcomes: two rate-limit failures, then success. -/
def demoRateLimitOutcomes : Nat → Except String String
  | 0 => Except.error "429 rate limit exceeded"
  | 1 => Except.error "quota exhausted for the project"
  | _ => Except.ok "optimized query text"

/-- Provider outcomes: the first call fails with an authentication error. -/
def demoAuthOutcomes : Nat → Except String String
  | 0 => Except.error "authentication failed: invalid api key"
  | _ => Except.ok "unreachable"

/-- A bucket metadata record. -/
def demoBucket0 : BucketMeta :=
  { name := "prod-data-1111", size_gb := 500, last_accessed := 100,
    region := "us-east1", storage_class := "STANDARD" }

/-- Three bucket metadata records. -/
def demoMeta3 : List BucketMeta :=
  [demoBucket0,
   { name := "dev-logs-2222", size_gb := 80, last_accessed := 150,
     region := "us-west1", storage_class := "NEARLINE" },
   { name := "backups-3333", size_gb := 2000, last_accessed := 10,
     region := "us-central1", storage_class := "COLDLINE" }]

/-- A suggestion matching `demoBucket0`. -/
def demoSug0 : StorageSuggestion :=
  { bucket_name := "prod-data-1111", issue := "infrequent access",
    suggestion := "Move to NEARLINE", estimated_savings_percent := 50 }

/-- Two suggestions referencing only two of the three bucket names
(`dev-logs-2222` is left unmatched by any suggestion). -/
def demoSugs2 : List StorageSuggestion :=
  [demoSug0,
   { bucket_name := "backups-3333", issue := "stale data",
     suggestion := "Delete objects older than a year",
     estimated_savings_percent := 30 }]

/-- Three ML job metadata records. -/
def demoJobs3 : List MLJobMeta :=
  [{ job_name := "train-resnet", estimated_cost := 120 },
   { job_name := "train-bert", estimated_cost := 300 },
   { job_name := "train-gpt", estimated_cost := 900 }]

/-- Two ML suggestions referencing only two of the three job names. -/
def demoMLSugs2 : List MLSuggestion :=
  [{ job_name := "train-resnet",
     current_config := { accelerator_type := "A100", gpu_hours := 100, spot_vm := false },
     suggested_config := { accelerator_type := "T4", gpu_hours := 100, spot_vm := true },
     optimization_type := "spot_vm_and_downgrade",
     estimated_savings_percent := 85 },
   { job_name := "train-gpt",
     current_config := { accelerator_type := "TPU_V3", gpu_hours := 200, spot_vm := false },
     suggested_config := { accelerator_type := "TPU_V2", gpu_hours := 200, spot_vm := false },
     optimization_type := "machine_type",
     estimated_savings_percent := 40 }]

/-- A single well-formed draw set (a 120-day-old medium bucket). -/
def demoDraw : BucketDraws :=
  { stemIdx := 2, suffix := 1234, size_distribution := 3 / 5,
    sizeDraw := 1029 / 4, days_ago := 120, classIdx := 1, regionIdx := 0 }

/-! ## Helper lemmas -/

theorem listHasPref_append (n xs ys : List Char) (h : listHasPref n xs = true) :
    listHasPref n (xs ++ ys) = true := by
  induction n generalizing xs with
  | nil => rfl
  | cons a as ih =>
    cases xs with
    | nil => simp [listHasPref] at h
    | cons b bs =>
      simp only [listHasPref, List.cons_append, Bool.and_eq_true] at h ⊢
      exact ⟨h.1, ih bs h.2⟩

theorem listHasSub_nil_left (l : List Char) : listHasSub [] l = true := by
  induction l with
  | nil => rfl
  | cons b bs ih => simp [listHasSub, listHasPref]

theorem listHasSub_append (n xs ys : List Char) (h : listHasSub n xs = true) :
    listHasSub n (xs ++ ys) = true := by
  induction xs with
  | nil =>
    cases n with
    | nil => exact listHasSub_nil_left ys
    | cons a as => simp [listHasSub, listHasPref] at h
  | cons b bs ih =>
    simp only [listHasSub, List.cons_append, Bool.or_eq_true] at h ⊢
    rcases h with h | h
    · exact Or.inl (listHasPref_append n (b :: bs) ys h)
    · exact Or.inr (ih h)

theorem strContains_append_left (a b n : String) (h : strContains a n = true) :
    strContains (a ++ b) n = true := by
  unfold strContains at h ⊢
  have hd : (a ++ b).toList = a.toList ++ b.toList := String.data_append a b
  rw [hd]
  exact listHasSub_append _ _ _ h

theorem length_filterMap_isSome {α β : Type} (f : α → Option β) (l : List α) :
    (l.filterMap f).length = (l.filter (fun a => (f a).isSome)).length := by
  induction l with
  | nil => rfl
  | cons a as ih =>
    cases h : f a <;> simp [List.filterMap_cons, List.filter_cons, h, ih]

theorem getD_mem {α : Type} (l : List α) (i : Nat) (d : α) (h : i < l.length) :
    l.getD i d ∈ l := by
  induction l generalizing i with
  | nil => simp at h
  | cons a as ih =>
    cases i with
    | zero => simp [List.getD]
    | succ n =>
      have : as.getD n d ∈ as := ih n (by simpa using h)
      simp [List.getD] at this ⊢
      tauto

theorem round2_pos (q : ℚ) (h : 1 ≤ q) : 0 < round2 q := by
  have h2 := abs_sub_round (100 * q)
  rw [abs_le] at h2
  have hr : (0 : ℚ) < (round (100 * q) : ℚ) := by linarith [h2.2]
  unfold round2
  exact div_pos hr (by norm_num)

/-! ## Claim theorems -/

/-- C1 (counterexample): on a dry run processing exactly `2 ^ 40` bytes the
code's estimated cost differs from `bytes / 2 ^ 40 * Config.BIGQUERY_COST_PER_TB`
(the code hard-codes a $5-per-TB rate; the configured constant is $50). -/
theorem dry_run_cost_not_config_rate :
    (dry_run_query (Except.ok (2 ^ 40))).estimated_cost_usd ≠
      ((2 ^ 40 : ℚ) / 2 ^ 40) * BIGQUERY_COST_PER_TB := by
  unfold dry_run_query BIGQUERY_COST_PER_TB
  norm_num

/-- C1 (amended): for every query whose dry run succeeds with
`bytes` bytes processed, `dry_run_query` returns `success = true` and
`estimated_cost_usd = bytes / 2 ^ 40 * 5.0` — the rate is the hard-coded
literal `5.0` USD per TB of `bigquery_service.py`, not
`Config.BIGQUERY_COST_PER_TB`. -/
theorem dry_run_cost_formula (bytes : Nat) :
    dry_run_query (Except.ok bytes) =
      { total_bytes_processed := bytes
        estimated_cost_usd := (bytes : ℚ) / 2 ^ 40 * 5.0
        success := true
        error := none } := by
  unfold dry_run_query
  norm_num

/-- C2: for every SQL optimization result built from a successful dry-run
pair, `savings_percent` is `(bytes_before - bytes_after) / bytes_before * 100`
when `bytes_before > 0` and `0` when `bytes_before = 0`; when
`bytes_after > bytes_before` (and some bytes were processed) the savings
percentage is strictly negative — it is not clamped to zero. -/
theorem sql_savings_percent_spec (query_id oq pq : String)
    (br ar : DryRunResult) (opts : List String) (ts : Int) :
    ((mk_sql_result query_id oq pq br ar opts ts).savings_percent =
      compute_savings_percent br.total_bytes_processed ar.total_bytes_processed) ∧
    (0 < br.total_bytes_processed →
      (mk_sql_result query_id oq pq br ar opts ts).savings_percent =
        (((br.total_bytes_processed : ℚ) - (ar.total_bytes_processed : ℚ)) /
          (br.total_bytes_processed : ℚ)) * 100) ∧
    (br.total_bytes_processed = 0 →
      (mk_sql_result query_id oq pq br ar opts ts).savings_percent = 0) ∧
    (br.total_bytes_processed < ar.total_bytes_processed →
      0 < br.total_bytes_processed →
      (mk_sql_result query_id oq pq br ar opts ts).savings_percent < 0) := by
  refine ⟨rfl, ?_, ?_, ?_⟩
  · intro hpos
    simp [mk_sql_result, compute_savings_percent, hpos]
  · intro hzero
    simp [mk_sql_result, compute_savings_percent, hzero]
    norm_num
  · intro hlt hpos
    have hform :
        (mk_sql_result query_id oq pq br ar opts ts).savings_percent =
          (((br.total_bytes_processed : ℚ) - (ar.total_bytes_processed : ℚ)) /
            (br.total_bytes_processed : ℚ)) * 100 := by
      simp [mk_sql_result, compute_savings_percent, hpos]
    rw [hform]
    have hnum : ((br.total_bytes_processed : ℚ) - (ar.total_bytes_processed : ℚ)) < 0 := by
      have := (Nat.cast_lt (α := ℚ)).mpr hlt
      linarith
    have hden : (0 : ℚ) < (br.total_bytes_processed : ℚ) := by
      exact_mod_cast hpos
    exact mul_neg_of_neg_of_pos (div_neg_of_neg_of_pos hnum hden) (by norm_num)

/-- C2 witness: with 100 bytes before and 150 bytes after, the computed
savings percentage is negative. -/
theorem sql_savings_percent_spec_witness :
    (mk_sql_result "Query 1" "q" "q opt" (dry_run_query (Except.ok 100))
      (dry_run_query (Except.ok 150)) [] 0).savings_percent < 0 := by
  have h := sql_savings_percent_spec "Query 1" "q" "q opt"
    (dry_run_query (Except.ok 100)) (dry_run_query (Except.ok 150)) [] 0
  exact h.2.2.2 (by decide) (by decide)

/-- C6: for every query, when the provider call raises any exception,
`dry_run_query` returns the failure record — `success = false`, zero bytes,
zero cost, and the exception text as the error — rather than propagating. -/
theorem dry_run_failure_record (e : String) :
    dry_run_query (Except.error e) =
      { total_bytes_processed := 0
        estimated_cost_usd := 0.0
        success := false
        error := some e } := rfl

/-- C10: `handle_ai_error` tests substrings in a fixed order, so an error
message carrying both a rate-limit marker and an authentication marker is
classified `rate_limit`, and is marked retryable exactly when retries
remain. -/
theorem rate_limit_marker_wins (msg : String) (retry_count : Nat)
    (hrl : (strContains (strLower msg) "rate limit" ||
      strContains (strLower msg) "quota") = true)
    (hauth : (strContains (strLower msg) "api key" ||
      strContains (strLower msg) "authentication") = true) :
    (handle_ai_error msg retry_count).error_type = "rate_limit" ∧
    (handle_ai_error msg retry_count).should_retry = decide (0 < retry_count) := by
  unfold handle_ai_error
  simp [hrl]

/-- C10 witness: a message with both markers, one retry remaining. -/
theorem rate_limit_marker_wins_witness :
    (handle_ai_error "rate limit hit: authentication failed" 1).error_type =
      "rate_limit" ∧
    (handle_ai_error "rate limit hit: authentication failed" 1).should_retry =
      decide (0 < 1) :=
  rate_limit_marker_wins "rate limit hit: authentication failed" 1
    (by decide) (by decide)

/-- C3: when the provider calls of attempts 0 and 1 fail with rate-limit
classified errors and attempt 2 succeeds, `_call_ai_with_retry` with its
default budget of 3 attempts performs exactly the backoff waits
`2 ^ 0 = 1` and `2 ^ 1 = 2` seconds (in that order) and returns the third
attempt's response text. -/
theorem retry_backoff_schedule (outcomes : Nat → Except String String)
    (e0 e1 t : String)
    (h0 : outcomes 0 = Except.error e0) (h1 : outcomes 1 = Except.error e1)
    (h2 : outcomes 2 = Except.ok t)
    (hr0 : (strContains (strLower e0) "rate limit" ||
      strContains (strLower e0) "quota") = true)
    (hr1 : (strContains (strLower e1) "rate limit" ||
      strContains (strLower e1) "quota") = true) :
    call_ai_with_retry outcomes 3 = ([1, 2], Except.ok t) := by
  unfold call_ai_with_retry
  simp [retry_go, h0, h1, h2, handle_ai_error, hr0, hr1]

/-- C3 witness: two concrete rate-limited failures, then a success. -/
theorem retry_backoff_schedule_witness :
    call_ai_with_retry demoRateLimitOutcomes 3 =
      ([1, 2], Except.ok "optimized query text") :=
  retry_backoff_schedule demoRateLimitOutcomes
    "429 rate limit exceeded" "quota exhausted for the project"
    "optimized query text" rfl rfl rfl (by decide) (by decide)

/-- C4: when attempt 0 fails with an error classified `authentication`
(no rate-limit marker, an auth marker present), `_call_ai_with_retry`
performs zero backoff waits and raises immediately — the outcome does not
depend on any later attempt — with a message containing "authentication";
moreover only `rate_limit` and `timeout` classifications are ever retryable,
and `authentication`/`invalid_response` classifications never are. -/
theorem auth_failure_fails_fast (outcomes : Nat → Except String String)
    (e : String)
    (h0 : outcomes 0 = Except.error e)
    (hnrl : (strContains (strLower e) "rate limit" ||
      strContains (strLower e) "quota") = false)
    (hauth : (strContains (strLower e) "api key" ||
      strContains (strLower e) "authentication") = true) :
    (call_ai_with_retry outcomes 3 =
      ([], Except.error ("Invalid API key or authentication failed" ++ ": " ++ e))) ∧
    (strContains ("Invalid API key or authentication failed" ++ ": " ++ e)
      "authentication" = true) ∧
    (∀ msg rc, (handle_ai_error msg rc).should_retry = true →
      (handle_ai_error msg rc).error_type = "rate_limit" ∨
      (handle_ai_error msg rc).error_type = "timeout") ∧
    (∀ msg rc, ((handle_ai_error msg rc).error_type = "authentication" ∨
      (handle_ai_error msg rc).error_type = "invalid_response") →
      (handle_ai_error msg rc).should_retry = false) := by
  refine ⟨?_, ?_, ?_, ?_⟩
  · unfold call_ai_with_retry
    simp [retry_go, h0, handle_ai_error, hnrl, hauth]
  · exact strContains_append_left ("Invalid API key or authentication failed" ++ ": ")
      e "authentication" (by decide)
  · intro msg rc h
    unfold handle_ai_error at h ⊢
    split_ifs at h ⊢ <;> simp_all
  · intro msg rc h
    unfold handle_ai_error at h ⊢
    split_ifs at h ⊢ <;> simp_all

/-- C4 witness: a concrete authentication failure on the first attempt. -/
theorem auth_failure_fails_fast_witness :
    (call_ai_with_retry demoAuthOutcomes 3 =
      ([], Except.error ("Invalid API key or authentication failed" ++ ": " ++
        "authentication failed: invalid api key"))) ∧
    (strContains ("Invalid API key or authentication failed" ++ ": " ++
      "authentication failed: invalid api key") "authentication" = true) := by
  have h := auth_failure_fails_fast demoAuthOutcomes
    "authentication failed: invalid api key" rfl (by decide) (by decide)
  exact ⟨h.1, h.2.1⟩

/-- C5: a pair whose original-query dry run fails is reported as a failure
without the optimized query ever being dry-run (the call trace is exactly
the original query), classified as an authentication failure exactly when
the error text matches the auth markers; and in the 5-pair demonstration
batch where only pair #3's original query fails, the other 4 pairs produce
successful results and pair #3's trace shows the optimized query was never
attempted. -/
theorem pair_failure_isolated (dryRun : String → DryRunResult)
    (query_id original_query optimized_query : String)
    (hfail : (dryRun original_query).success = false) :
    (process_query_pair_parallel dryRun query_id original_query optimized_query =
      ([original_query], false,
        if is_auth_error_text ((dryRun original_query).error.getD "Unknown error") then
          PairResult.err query_id "Authentication error - check credentials"
        else
          PairResult.err query_id
            ("Original query failed: " ++
              strTake ((dryRun original_query).error.getD "Unknown error") 150))) ∧
    ((run_pairs_batch demoDryRun demoPairs5).countP (fun r => r.2.1) = 4) ∧
    ((run_pairs_batch demoDryRun demoPairs5).getD 2 ([], true, PairResult.err "" "") =
      (["SELECT C"], false,
        PairResult.err "Query 3" "Original query failed: 403 permission denied")) := by
  refine ⟨?_, by decide, by decide⟩
  unfold process_query_pair_parallel
  simp only [hfail, if_true]
  split <;> rfl

/-- C5 witness: pair #3 of the demonstration batch. -/
theorem pair_failure_isolated_witness :
    process_query_pair_parallel demoDryRun "Query 3" "SELECT C" "SELECT C opt" =
      (["SELECT C"], false,
        if is_auth_error_text ((demoDryRun "SELECT C").error.getD "Unknown error") then
          PairResult.err "Query 3" "Authentication error - check credentials"
        else
          PairResult.err "Query 3"
            ("Original query failed: " ++
              strTake ((demoDryRun "SELECT C").error.getD "Unknown error") 150)) := by
  have h := pair_failure_isolated demoDryRun "Query 3" "SELECT C" "SELECT C opt"
    (by decide)
  exact h.1

/-- C7: every storage optimization result produced from a suggestion matched
to a bucket satisfies `estimated_savings_usd = current_monthly_cost *
estimated_savings_percent / 100` with `current_monthly_cost = size_gb *
tier_rate` of the matched bucket's storage tier, and the tier rates are
STANDARD 0.020, NEARLINE 0.010, COLDLINE 0.004, ARCHIVE 0.0012 per GB per
month. -/
theorem storage_savings_formula (bucket_metadata : List BucketMeta)
    (suggestions : List StorageSuggestion) (r : StorageOptimizationResult)
    (hr : r ∈ run_storage_aggregation bucket_metadata suggestions) :
    (∃ b ∈ bucket_metadata,
      b.name = r.bucket_name ∧
      r.current_size_gb = b.size_gb ∧
      r.current_storage_class = b.storage_class ∧
      r.estimated_savings_usd =
        (b.size_gb * storage_costs b.storage_class) *
          (r.estimated_savings_percent / 100)) ∧
    storage_costs "STANDARD" = 0.020 ∧
    storage_costs "NEARLINE" = 0.010 ∧
    storage_costs "COLDLINE" = 0.004 ∧
    storage_costs "ARCHIVE" = 0.0012 := by
  have e1 : storage_costs "STANDARD" = 20 / 1000 := rfl
  have e2 : storage_costs "NEARLINE" = 10 / 1000 := rfl
  have e3 : storage_costs "COLDLINE" = 4 / 1000 := rfl
  have e4 : storage_costs "ARCHIVE" = 12 / 10000 := rfl
  refine ⟨?_, by rw [e1]; norm_num, by rw [e2]; norm_num,
    by rw [e3]; norm_num, by rw [e4]; norm_num⟩
  rw [run_storage_aggregation, List.mem_filterMap] at hr
  obtain ⟨s, hs, hmap⟩ := hr
  rw [Option.map_eq_some'] at hmap
  obtain ⟨b, hfind, hmk⟩ := hmap
  refine ⟨b, List.mem_of_find?_eq_some hfind, ?_, ?_, ?_, ?_⟩
  · have := List.find?_some hfind
    have hbn : b.name = s.bucket_name := by simpa using this
    rw [hbn, ← hmk]
    rfl
  · rw [← hmk]; rfl
  · rw [← hmk]; rfl
  · rw [← hmk]; rfl

/-- C7 witness: the tier-rate table, via the matched demonstration result. -/
theorem storage_savings_formula_witness :
    storage_costs "STANDARD" = 0.020 ∧ storage_costs "NEARLINE" = 0.010 ∧
    storage_costs "COLDLINE" = 0.004 ∧ storage_costs "ARCHIVE" = 0.0012 := by
  have h := storage_savings_formula demoMeta3 demoSugs2
    (mk_storage_result demoSug0 demoBucket0)
    (List.mem_filterMap.mpr ⟨demoSug0, List.mem_cons_self _ _, rfl⟩)
  exact h.2

/-- C8: both aggregators produce exactly one result record per suggestion
whose name matches a metadata record (the result count equals the count of
matched suggestions, and every result's name is a suggestion's name);
suggestions without a matching metadata record are dropped.  In the
demonstration instance — 3 metadata records, 2 suggestions referencing 2 of
the names — exactly 2 results are produced and the unmatched metadata record
yields no result. -/
theorem aggregation_matching (bucket_metadata : List BucketMeta)
    (suggestions : List StorageSuggestion)
    (ml_job_metadata : List MLJobMeta) (ml_suggestions : List MLSuggestion) :
    ((run_storage_aggregation bucket_metadata suggestions).length =
      (suggestions.filter (fun s =>
        (bucket_metadata.find? (fun b => b.name == s.bucket_name)).isSome)).length) ∧
    (∀ r ∈ run_storage_aggregation bucket_metadata suggestions,
      ∃ s ∈ suggestions, r.bucket_name = s.bucket_name) ∧
    ((run_ml_aggregation ml_job_metadata ml_suggestions).length =
      (ml_suggestions.filter (fun s =>
        (ml_job_metadata.find? (fun j => j.job_name == s.job_name)).isSome)).length) ∧
    ((run_storage_aggregation demoMeta3 demoSugs2).length = 2) ∧
    (∀ r ∈ run_storage_aggregation demoMeta3 demoSugs2,
      r.bucket_name ≠ "dev-logs-2222") ∧
    ((run_ml_aggregation demoJobs3 demoMLSugs2).length = 2) ∧
    (∀ r ∈ run_ml_aggregation demoJobs3 demoMLSugs2,
      r.job_name ≠ "train-bert") := by
  refine ⟨?_, ?_, ?_, by decide, by decide, by decide, by decide⟩
  · rw [run_storage_aggregation, length_filterMap_isSome]
    congr 1
    apply List.filter_congr
    intro s _
    cases bucket_metadata.find? (fun b => b.name == s.bucket_name) <;> rfl
  · intro r hr
    rw [run_storage_aggregation, List.mem_filterMap] at hr
    obtain ⟨s, hs, hmap⟩ := hr
    rw [Option.map_eq_some'] at hmap
    obtain ⟨b, _, hmk⟩ := hmap
    exact ⟨s, hs, by rw [← hmk]; rfl⟩
  · rw [run_ml_aggregation, length_filterMap_isSome]
    congr 1
    apply List.filter_congr
    intro s _
    cases ml_job_metadata.find? (fun j => j.job_name == s.job_name) <;> rfl

/-- C8 witness: the demonstration instance counts. -/
theorem aggregation_matching_witness :
    (run_storage_aggregation demoMeta3 demoSugs2).length = 2 ∧
    (run_ml_aggregation demoJobs3 demoMLSugs2).length = 2 := by
  have h := aggregation_matching demoMeta3 demoSugs2 demoJobs3 demoMLSugs2
  exact ⟨h.2.2.2.1, h.2.2.2.2.2.1⟩

/-- C9: for every batch of well-formed random draws,
`generate_bucket_metadata` produces exactly one record per draw, and every
record has a positive size, a last-access timestamp at least one day in the
past, a storage class drawn from the four recognized tiers, and — when the
record is 90 or more days old — a storage class other than STANDARD. -/
theorem generate_bucket_metadata_spec (now : Int) (draws : List BucketDraws)
    (hwf : ∀ d ∈ draws, WellFormedDraws d) :
    ((generate_bucket_metadata now draws).length = draws.length) ∧
    (∀ b ∈ generate_bucket_metadata now draws,
      0 < b.size_gb ∧
      b.last_accessed ≤ now - 1 ∧
      b.storage_class ∈ STORAGE_CLASSES ∧
      (90 ≤ now - b.last_accessed → b.storage_class ≠ "STANDARD")) := by
  refine ⟨List.length_map _ _, ?_⟩
  intro b hb
  rw [generate_bucket_metadata, List.mem_map] at hb
  obtain ⟨d, hd, rfl⟩ := hb
  obtain ⟨h1, h2, h3, h4, h5, h6, h7, h8, h9⟩ := hwf d hd
  have hlen : 0 < (storage_class_options d.days_ago).length := by
    unfold storage_class_options
    split_ifs <;> simp
  have hmem : (generate_bucket now d).storage_class ∈
      storage_class_options d.days_ago := by
    show (storage_class_options d.days_ago).getD
      (d.classIdx % (storage_class_options d.days_ago).length) "" ∈ _
    exact getD_mem _ _ _ (Nat.mod_lt _ hlen)
  refine ⟨?_, ?_, ?_, ?_⟩
  · show 0 < round2 d.sizeDraw
    have hsz : 1 ≤ d.sizeDraw := by
      by_cases hc1 : d.size_distribution < 1 / 2
      · exact (h5 hc1).1
      · by_cases hc2 : d.size_distribution < 4 / 5
        · linarith [(h6 (le_of_not_lt hc1) hc2).1]
        · linarith [(h7 (le_of_not_lt hc2)).1]
    exact round2_pos _ hsz
  · show now - (d.days_ago : Int) ≤ now - 1
    have : (1 : Int) ≤ (d.days_ago : Int) := by exact_mod_cast h8
    linarith
  · have hall : ∀ x ∈ storage_class_options d.days_ago, x ∈ STORAGE_CLASSES := by
      unfold storage_class_options
      split_ifs <;> decide
    exact hall _ hmem
  · intro hage heq
    have hage' : (90 : Int) ≤ now - (now - (d.days_ago : Int)) := hage
    have hdays : 90 ≤ d.days_ago := by omega
    have hopt : storage_class_options d.days_ago =
        ["NEARLINE", "COLDLINE", "ARCHIVE"] := by
      unfold storage_class_options
      rw [if_neg (by omega), if_neg (by omega)]
    rw [hopt, heq] at hmem
    simp at hmem

/-- C9 witness: a single concrete well-formed draw (120 days old, medium
size) yields one record with the stated properties. -/
theorem generate_bucket_metadata_spec_witness :
    ((generate_bucket_metadata 500 [demoDraw]).length = [demoDraw].length) ∧
    (0 < (generate_bucket 500 demoDraw).size_gb) ∧
    ((generate_bucket 500 demoDraw).storage_class ∈ STORAGE_CLASSES) := by
  have h := generate_bucket_metadata_spec 500 [demoDraw] (by
    intro d hd
    simp only [List.mem_singleton] at hd
    subst hd
    unfold WellFormedDraws demoDraw
    norm_num)
  have hm : generate_bucket 500 demoDraw ∈ generate_bucket_metadata 500 [demoDraw] :=
    List.mem_map.mpr ⟨demoDraw, List.mem_cons_self _ _, rfl⟩
  exact ⟨h.1, (h.2 _ hm).1, (h.2 _ hm).2.2.1⟩

end BigQOpt
